import Mathlib

/-!
Shallow embedding of the browser control layer implemented in
`src/computers/playwright/playwright.py`, together with theorems that check
the natural-language specification against it.  Engine calls (keyboard,
mouse, script evaluation, screenshots, teardown) are modelled as explicit
event traces; fallible code is modelled with an `Option String` error slot
that mirrors a raised Python exception.
-/

namespace PW

/-- The `PLAYWRIGHT_KEY_MAP` constant from the source: mapping of
user-friendly key names to Playwright key names. -/
def PLAYWRIGHT_KEY_MAP : List (String × String) := [
  ("backspace", "Backspace"),
  ("tab", "Tab"),
  ("return", "Enter"),
  ("enter", "Enter"),
  ("shift", "Shift"),
  ("control", "ControlOrMeta"),
  ("alt", "Alt"),
  ("escape", "Escape"),
  ("space", "Space"),
  ("pageup", "PageUp"),
  ("pagedown", "PageDown"),
  ("end", "End"),
  ("home", "Home"),
  ("left", "ArrowLeft"),
  ("up", "ArrowUp"),
  ("right", "ArrowRight"),
  ("down", "ArrowDown"),
  ("insert", "Insert"),
  ("delete", "Delete"),
  ("semicolon", ";"),
  ("equals", "="),
  ("multiply", "Multiply"),
  ("add", "Add"),
  ("separator", "Separator"),
  ("subtract", "Subtract"),
  ("decimal", "Decimal"),
  ("divide", "Divide"),
  ("f1", "F1"),
  ("f2", "F2"),
  ("f3", "F3"),
  ("f4", "F4"),
  ("f5", "F5"),
  ("f6", "F6"),
  ("f7", "F7"),
  ("f8", "F8"),
  ("f9", "F9"),
  ("f10", "F10"),
  ("f11", "F11"),
  ("f12", "F12"),
  ("command", "Meta")]

/-- The Python `str.lower` call on a key name: lowercase every character.
This is extensionally `String.toLower` (which is `String.map Char.toLower`),
written through the character list so that it evaluates by kernel
reduction. -/
def pyLower (s : String) : String := String.mk (s.data.map Char.toLower)

/-- Key normalization as performed inside `key_combination`:
`PLAYWRIGHT_KEY_MAP.get(k.lower(), k)` — look the key up by its
lower-cased form and fall back to the original name. -/
def normalizeKey (k : String) : String :=
  (PLAYWRIGHT_KEY_MAP.lookup (pyLower k)).getD k

/-- One keyboard event issued to the engine (`page.keyboard.down`,
`page.keyboard.press`, `page.keyboard.up`). -/
inductive KeyEvent where
  | down (key : String)
  | press (key : String)
  | up (key : String)
deriving DecidableEq, Repr

/-- The `key_combination` method: normalize the keys, hold down
`keys[:-1]` in order, press `keys[-1]`, release `reversed(keys[:-1])`.
Returns the keyboard events issued, paired with `some` error message when
the Python code would raise (indexing `keys[-1]` on an empty list raises
IndexError after the empty down-loop issued nothing). -/
def keyCombinationRun (keys : List String) : List KeyEvent × Option String :=
  let ks := keys.map normalizeKey
  let downs := ks.dropLast.map KeyEvent.down
  match ks.getLast? with
  | none => (downs, some "IndexError: list index out of range")
  | some lastKey =>
      (downs ++ [KeyEvent.press lastKey] ++ ks.dropLast.reverse.map KeyEvent.up, none)

/-- The Python `str.startswith` test for a single needle: the characters of
`head` lead the characters of `s`.  Extensionally this is
`String.startsWith`, written through the character lists so that it
evaluates by kernel reduction. -/
def pyStartsWith (s head : String) : Bool := head.data.isPrefixOf s.data

/-- URL rewriting performed by `navigate`: prefix `https://` unless the url
already starts with `http://` or `https://`
(`url.startswith(("http://", "https://"))`). -/
def navigateUrl (url : String) : String :=
  if pyStartsWith url "http://" || pyStartsWith url "https://" then url
  else "https://" ++ url

/-- Helper for `hasUrlScheme`: scheme characters after the leading letter,
terminated by a colon. -/
def schemeTail : List Char → Bool
  | [] => false
  | c :: cs =>
      if c = ':' then true
      else (c.isAlphanum || c = '+' || c = '-' || c = '.') && schemeTail cs

/-- Follows the wording of the specification (not the source): whether a URL
string carries a scheme in the generic URI sense — a letter followed by
letters, digits, `+`, `-` or `.`, terminated by `:`.  Used only to compare
the claim "prefixes exactly when the URL lacks a scheme" against the
`startsWith` test the code actually performs. -/
def hasUrlScheme (url : String) : Bool :=
  match url.toList with
  | [] => false
  | c :: cs => c.isAlpha && schemeTail cs

/-- One engine call issued by the scroll methods: a `key_combination`
invocation, a `window.scrollBy(dx, 0)` script evaluation, a mouse move or a
mouse wheel event. -/
inductive EngineCall where
  | keyCombo (keys : List String)
  | evalScrollBy (dx : Int)
  | mouseMove (x y : Int)
  | wheel (dx dy : Int)
deriving DecidableEq, Repr

/-- The `_horizontal_document_scroll` method: scroll amount is
`screen_size()[0] // 2`, with a `-` sign prefixed for direction `left`,
evaluated as `window.scrollBy(amount, 0)` in page context. -/
def horizontalDocumentScroll (screenWidth : Nat) (direction : String) : EngineCall :=
  let horizontalScrollAmount : Nat := screenWidth / 2
  let dx : Int :=
    if direction = "left" then -(horizontalScrollAmount : Int)
    else (horizontalScrollAmount : Int)
  EngineCall.evalScrollBy dx

/-- The `scroll_document` method: `down`/`up` delegate to
`key_combination` with PageDown/PageUp, `left`/`right` delegate to
`_horizontal_document_scroll`, anything else raises
`ValueError("Unsupported direction: ", direction)`. -/
def scroll_document (screenWidth : Nat) (direction : String) : Except String EngineCall :=
  if direction = "down" then Except.ok (EngineCall.keyCombo ["PageDown"])
  else if direction = "up" then Except.ok (EngineCall.keyCombo ["PageUp"])
  else if direction = "left" ∨ direction = "right" then
    Except.ok (horizontalDocumentScroll screenWidth direction)
  else Except.error ("Unsupported direction: " ++ direction)

/-- Default value of the `magnitude` parameter of `scroll_at`. -/
def scrollAtDefaultMagnitude : Int := 800

/-- The `scroll_at` method: move the mouse to `(x, y)`, derive `(dx, dy)`
from direction and magnitude, and issue one wheel event; an unsupported
direction raises `ValueError` after the move but before any wheel event.
Returns the mouse events issued paired with `some` error on a raise. -/
def scroll_at (x y : Int) (direction : String) (magnitude : Int) :
    List EngineCall × Option String :=
  let pre : List EngineCall := [EngineCall.mouseMove x y]
  if direction = "up" then (pre ++ [EngineCall.wheel 0 (-magnitude)], none)
  else if direction = "down" then (pre ++ [EngineCall.wheel 0 magnitude], none)
  else if direction = "left" then (pre ++ [EngineCall.wheel (-magnitude) 0], none)
  else if direction = "right" then (pre ++ [EngineCall.wheel magnitude 0], none)
  else (pre, some ("Unsupported direction: " ++ direction))

/-- One teardown step attempted by `__aexit__`. -/
inductive TeardownStep where
  | closeContext
  | closeBrowser
  | stopPlaywright
deriving DecidableEq, Repr

/-- Which of the three session handles are non-None when `__aexit__` runs. -/
structure Handles where
  context : Bool
  browser : Bool
  playwright : Bool
deriving DecidableEq, Repr

/-- Environment behaviour during teardown: whether each awaited close/stop
call raises an exception. -/
structure CloseBehavior where
  contextRaises : Bool
  browserRaises : Bool
  playwrightRaises : Bool
deriving DecidableEq, Repr

/-- One guarded teardown statement `if handle: await handle.close()`:
attempted only when the handle is set, recording the step and the raised
exception if any. -/
def attemptStep (present raises : Bool) (s : TeardownStep) (msg : String) :
    List TeardownStep × Option String :=
  if present then ([s], if raises then some msg else none) else ([], none)

/-- Python sequencing of two statements: the second runs only when the first
did not raise; a raise propagates and aborts the rest of the method. -/
def andThenStep (a b : List TeardownStep × Option String) :
    List TeardownStep × Option String :=
  match a with
  | (t, some e) => (t, some e)
  | (t, none) => (t ++ b.1, b.2)

/-- The `__aexit__` method: close the context, close the browser, stop the
engine, each conditional on the handle being set, with no
exception handling around any of the three statements. -/
def aexit (h : Handles) (beh : CloseBehavior) : List TeardownStep × Option String :=
  andThenStep (attemptStep h.context beh.contextRaises TeardownStep.closeContext "context.close raised")
    (andThenStep
      (attemptStep h.browser beh.browserRaises TeardownStep.closeBrowser "browser.close raised")
      (attemptStep h.playwright beh.playwrightRaises TeardownStep.stopPlaywright "playwright.stop raised"))

/-- A browser page: an identity distinguishing page objects plus its current
URL. -/
structure Page where
  id : Nat
  url : String
deriving DecidableEq, Repr

/-- The set of pages open in the browsing context. -/
structure ContextState where
  pages : List Page
deriving DecidableEq, Repr

/-- `page.close()`: the page leaves the context. -/
def closePage (ctx : ContextState) (pid : Nat) : ContextState :=
  ContextState.mk (ctx.pages.filter (fun q => q.id != pid))

/-- `page.goto(url)`: the page with the given identity now shows `url`. -/
def gotoUrl (ctx : ContextState) (pid : Nat) (u : String) : ContextState :=
  ContextState.mk (ctx.pages.map (fun q => if q.id = pid then Page.mk q.id u else q))

/-- The `_handle_new_page` popup handler: read the URL of the new
page, close the new page, and navigate the original page (`self._page`,
identified by `origId`) to that URL. -/
def handle_new_page (ctx : ContextState) (origId : Nat) (newPage : Page) : ContextState :=
  let newUrl := newPage.url
  gotoUrl (closePage ctx newPage.id) origId newUrl

/-- Modelled from the spec: `EnvState` is defined in `computers/computer.py`,
which is not among the provided sources; per the StateSnapshot description it
is screenshot bytes plus the current URL string of the page at capture
time. -/
structure EnvState where
  screenshot : List Nat
  url : String
deriving DecidableEq, Repr

/-- The observable state of the active page for snapshot purposes: its URL
and the bytes a viewport-bound respectively full-page screenshot would
produce. -/
structure PageState where
  url : String
  viewportShotBytes : List Nat
  fullShotBytes : List Nat
deriving DecidableEq, Repr

/-- One step performed while capturing a snapshot. -/
inductive SnapshotStep where
  | waitForLoadState
  | waitForTimeout (ms : Nat)
  | screenshot (fullPage : Bool)
deriving DecidableEq, Repr

/-- The `current_state` method: wait for the load state, wait a fixed
500 ms, take a viewport-bound (`full_page=False`) screenshot, and return an
`EnvState` carrying the screenshot bytes and `self._page.url`. -/
def current_state (p : PageState) : List SnapshotStep × EnvState :=
  ([SnapshotStep.waitForLoadState, SnapshotStep.waitForTimeout 500,
    SnapshotStep.screenshot false],
   EnvState.mk p.viewportShotBytes p.url)

/-- Claim C4: for a key list K1..Kn with n at least 1 (written here as
front ++ [lastKey]), key_combination normalizes each key, presses
K1..K(n-1) down in the given order, presses-and-releases Kn, then releases
K(n-1)..K1 in exactly the reverse of press order, and the keyboard events
occur in exactly that sequence. -/
theorem key_combination_event_order (front : List String) (lastKey : String) :
    keyCombinationRun (front ++ [lastKey]) =
      ((front.map normalizeKey).map KeyEvent.down
        ++ [KeyEvent.press (normalizeKey lastKey)]
        ++ ((front.map normalizeKey).reverse.map KeyEvent.up), none) := by
  simp [keyCombinationRun]

/-- Claim C6: scroll_document maps up/down to PageUp/PageDown key-chords,
and for left/right issues a horizontal scroll-by of exactly the screen
width integer-divided by 2, negative for left and positive for right; on a
viewport of width 1440, left scrolls by exactly -720 pixels and right by
+720. -/
theorem scroll_document_mapping (w : Nat) :
    scroll_document w "up" = Except.ok (EngineCall.keyCombo ["PageUp"]) ∧
    scroll_document w "down" = Except.ok (EngineCall.keyCombo ["PageDown"]) ∧
    scroll_document w "left" = Except.ok (EngineCall.evalScrollBy (-((w / 2 : Nat) : Int))) ∧
    scroll_document w "right" = Except.ok (EngineCall.evalScrollBy ((w / 2 : Nat) : Int)) ∧
    scroll_document 1440 "left" = Except.ok (EngineCall.evalScrollBy (-720)) ∧
    scroll_document 1440 "right" = Except.ok (EngineCall.evalScrollBy 720) :=
  ⟨rfl, rfl, rfl, rfl, rfl, rfl⟩

/-- Claim C7: for every valid direction and magnitude m, scroll_at issues a
single wheel event with delta up (0,-m), down (0,m), left (-m,0),
right (m,0); the default magnitude is 800, so direction up with no
explicit magnitude yields (0,-800) and right yields (800,0). -/
theorem scroll_at_wheel_delta (x y m : Int) :
    scroll_at x y "up" m = ([EngineCall.mouseMove x y, EngineCall.wheel 0 (-m)], none) ∧
    scroll_at x y "down" m = ([EngineCall.mouseMove x y, EngineCall.wheel 0 m], none) ∧
    scroll_at x y "left" m = ([EngineCall.mouseMove x y, EngineCall.wheel (-m) 0], none) ∧
    scroll_at x y "right" m = ([EngineCall.mouseMove x y, EngineCall.wheel m 0], none) ∧
    scrollAtDefaultMagnitude = 800 ∧
    scroll_at x y "up" scrollAtDefaultMagnitude =
      ([EngineCall.mouseMove x y, EngineCall.wheel 0 (-800)], none) ∧
    scroll_at x y "right" scrollAtDefaultMagnitude =
      ([EngineCall.mouseMove x y, EngineCall.wheel 800 0], none) :=
  ⟨rfl, rfl, rfl, rfl, rfl, rfl, rfl⟩

/-- Claim C8: every snapshot capture first waits for the load-settled
condition, then waits an additional fixed 500 ms, then takes a
viewport-bound (not full-page) screenshot, and the returned state carries
the URL of the active page at the moment of capture. -/
theorem current_state_capture (p : PageState) :
    (current_state p).1 = [SnapshotStep.waitForLoadState, SnapshotStep.waitForTimeout 500,
      SnapshotStep.screenshot false] ∧
    (current_state p).2.url = p.url ∧
    (current_state p).2.screenshot = p.viewportShotBytes :=
  ⟨rfl, rfl, rfl⟩

/-- Claim C9: key normalization looks keys up by their lower-cased form,
and when the lower-cased name is not in the fixed key map the original name
passes through verbatim. -/
theorem normalize_key_lookup (k v : String) :
    (PLAYWRIGHT_KEY_MAP.lookup (pyLower k) = some v → normalizeKey k = v) ∧
    (PLAYWRIGHT_KEY_MAP.lookup (pyLower k) = none → normalizeKey k = k) := by
  constructor <;> intro h <;> simp [normalizeKey, h]

/-- Witness for claim C9 at the concrete keys ENTER (mapped,
case-insensitively, to Enter) and F13 (absent from the map, passed through
verbatim). -/
theorem normalize_key_lookup_witness :
    PLAYWRIGHT_KEY_MAP.lookup (pyLower "ENTER") = some "Enter" ∧
    normalizeKey "ENTER" = "Enter" ∧
    PLAYWRIGHT_KEY_MAP.lookup (pyLower "F13") = none ∧
    normalizeKey "F13" = "F13" :=
  ⟨by decide, (normalize_key_lookup "ENTER" "Enter").1 (by decide),
   by decide, (normalize_key_lookup "F13" "F13").2 (by decide)⟩

/-- Claim C10: key_combination on the empty key list fails with an
index-out-of-range error before issuing any keyboard event, and for every
non-empty key list all list indexing inside key_combination is in bounds
(no error is raised). -/
theorem key_combination_empty_and_bounds (keys : List String) :
    keyCombinationRun [] = ([], some "IndexError: list index out of range") ∧
    (keys ≠ [] → (keyCombinationRun keys).2 = none) := by
  refine ⟨rfl, fun h => ?_⟩
  cases hx : (keys.map normalizeKey).getLast? with
  | none =>
      have hnil : keys.map normalizeKey = [] := List.getLast?_eq_none_iff.mp hx
      simp only [List.map_eq_nil_iff] at hnil
      exact absurd hnil h
  | some a => simp [keyCombinationRun, hx]

/-- Witness for claim C10 at the concrete key list containing control and
a. -/
theorem key_combination_empty_and_bounds_witness :
    (["control", "a"] : List String) ≠ [] ∧
    (keyCombinationRun ["control", "a"]).2 = none :=
  ⟨by decide, (key_combination_empty_and_bounds ["control", "a"]).2 (by decide)⟩

/-- Claim C5: for every direction value outside up, down, left, right, both
scroll_document and scroll_at raise an error that carries the offending
direction value; neither treats an unsupported direction as a silent no-op
(scroll_at issues no wheel event). -/
theorem scroll_invalid_direction_error (w : Nat) (x y m : Int) (d : String)
    (h1 : d ≠ "up") (h2 : d ≠ "down") (h3 : d ≠ "left") (h4 : d ≠ "right") :
    scroll_document w d = Except.error ("Unsupported direction: " ++ d) ∧
    scroll_at x y d m =
      ([EngineCall.mouseMove x y], some ("Unsupported direction: " ++ d)) := by
  constructor
  · simp [scroll_document, h1, h2, h3, h4]
  · simp [scroll_at, h1, h2, h3, h4]

/-- Witness for claim C5 at the concrete unsupported direction value
diagonal. -/
theorem scroll_invalid_direction_error_witness :
    ("diagonal" : String) ≠ "up" ∧
    scroll_document 1440 "diagonal" =
      Except.error ("Unsupported direction: " ++ "diagonal") ∧
    scroll_at 10 20 "diagonal" 800 =
      ([EngineCall.mouseMove 10 20], some ("Unsupported direction: " ++ "diagonal")) :=
  ⟨by decide,
   (scroll_invalid_direction_error 1440 10 20 800 "diagonal"
      (by decide) (by decide) (by decide) (by decide)).1,
   (scroll_invalid_direction_error 1440 10 20 800 "diagonal"
      (by decide) (by decide) (by decide) (by decide)).2⟩

/-- Claim C2: when the browser spawns a popup page while one original page
is attached, the popup handler closes the spawned page and navigates the
original page to the popup target URL, so exactly one page remains attached
afterward and it shows the popup target URL. -/
theorem handle_new_page_single_page (orig popup : Page) (h : orig.id ≠ popup.id) :
    handle_new_page (ContextState.mk [orig, popup]) orig.id popup =
      ContextState.mk [Page.mk orig.id popup.url] ∧
    (handle_new_page (ContextState.mk [orig, popup]) orig.id popup).pages.length = 1 := by
  obtain ⟨i, u⟩ := orig
  obtain ⟨j, v⟩ := popup
  simp only at h
  have h1 : handle_new_page (ContextState.mk [Page.mk i u, Page.mk j v]) i (Page.mk j v) =
      ContextState.mk [Page.mk i v] := by
    simp [handle_new_page, closePage, gotoUrl, h]
  exact ⟨h1, by rw [h1]; rfl⟩

/-- Witness for claim C2 at two concrete pages with distinct identities. -/
theorem handle_new_page_single_page_witness :
    (Page.mk 0 "https://a.test").id ≠ (Page.mk 1 "https://b.test").id ∧
    handle_new_page (ContextState.mk [Page.mk 0 "https://a.test", Page.mk 1 "https://b.test"])
        (Page.mk 0 "https://a.test").id (Page.mk 1 "https://b.test") =
      ContextState.mk [Page.mk 0 "https://b.test"] :=
  ⟨by decide,
   (handle_new_page_single_page (Page.mk 0 "https://a.test") (Page.mk 1 "https://b.test")
      (by decide)).1⟩

/-- Counterexample to claim C1: with all three handles set, a raise in
context close stops teardown — browser close and engine stop are never
attempted, so teardown IS short-circuited by a single resource failing. -/
theorem aexit_stops_after_context_failure :
    (aexit (Handles.mk true true true) (CloseBehavior.mk true false false)).1 =
      [TeardownStep.closeContext] ∧
    TeardownStep.closeBrowser ∉
      (aexit (Handles.mk true true true) (CloseBehavior.mk true false false)).1 ∧
    TeardownStep.stopPlaywright ∉
      (aexit (Handles.mk true true true) (CloseBehavior.mk true false false)).1 := by
  decide

/-- Claim C1 as amended: session exit attempts the three teardown steps
strictly in sequence, each only when its handle is set; when no step
raises, all present handles are released in order context, browser,
engine, but an exception in an earlier step propagates and the remaining
steps are not attempted (context close raising skips browser close and
engine stop; browser close raising skips engine stop). -/
theorem aexit_sequential_teardown (h : Handles) (beh : CloseBehavior) :
    (beh.contextRaises = false → beh.browserRaises = false → beh.playwrightRaises = false →
      aexit h beh =
        ((if h.context then [TeardownStep.closeContext] else []) ++
         (if h.browser then [TeardownStep.closeBrowser] else []) ++
         (if h.playwright then [TeardownStep.stopPlaywright] else []), none)) ∧
    (h.context = true → beh.contextRaises = true →
      aexit h beh = ([TeardownStep.closeContext], some "context.close raised")) ∧
    (beh.contextRaises = false → h.browser = true → beh.browserRaises = true →
      aexit h beh =
        ((if h.context then [TeardownStep.closeContext] else []) ++
          [TeardownStep.closeBrowser], some "browser.close raised")) := by
  obtain ⟨hc, hb, hp⟩ := h
  obtain ⟨bc, bb, bp⟩ := beh
  cases hc <;> cases hb <;> cases hp <;> cases bc <;> cases bb <;> cases bp <;>
    simp [aexit, andThenStep, attemptStep]

/-- Witness for the amended claim C1 at concrete handle and failure
configurations. -/
theorem aexit_sequential_teardown_witness :
    aexit (Handles.mk true true true) (CloseBehavior.mk false false false) =
      ([TeardownStep.closeContext, TeardownStep.closeBrowser, TeardownStep.stopPlaywright],
        none) ∧
    aexit (Handles.mk true true true) (CloseBehavior.mk true false false) =
      ([TeardownStep.closeContext], some "context.close raised") := by
  constructor
  · simpa using
      (aexit_sequential_teardown (Handles.mk true true true)
        (CloseBehavior.mk false false false)).1 rfl rfl rfl
  · exact
      (aexit_sequential_teardown (Handles.mk true true true)
        (CloseBehavior.mk true false false)).2.1 rfl rfl

/-- Counterexample to claim C3: the url ftp://example.com carries a scheme
in the URI sense, yet navigate still prefixes https:// to it — the code
tests for the two literal string starts http:// and https://, not for the
presence of a scheme. -/
theorem navigate_scheme_counterexample :
    ¬ (navigateUrl "ftp://example.com" = "https://" ++ "ftp://example.com" ↔
        hasUrlScheme "ftp://example.com" = false) := by
  decide

/-- Claim C3 as amended: navigate prefixes https:// exactly when the url
does not start with the literal http:// or https:// (rather than exactly
when it lacks a scheme); Navigate of example.com is equivalent to Navigate
of https://example.com, and urls already starting with http:// or https://
pass through unchanged. -/
theorem navigate_https_rewrite (url : String) :
    (navigateUrl url = "https://" ++ url ↔
      (pyStartsWith url "http://" || pyStartsWith url "https://") = false) ∧
    ((pyStartsWith url "http://" || pyStartsWith url "https://") = true →
      navigateUrl url = url) ∧
    navigateUrl "example.com" = navigateUrl "https://example.com" := by
  refine ⟨?_, fun hb => by simp [navigateUrl, hb], by decide⟩
  by_cases hb : (pyStartsWith url "http://" || pyStartsWith url "https://") = true
  · have hnav : navigateUrl url = url := by simp [navigateUrl, hb]
    rw [hnav, hb]
    constructor
    · intro heq
      have hlen := congrArg String.length heq
      rw [String.length_append] at hlen
      have h8 : ("https://" : String).length = 8 := rfl
      rw [h8] at hlen
      omega
    · intro hf
      exact absurd hf (by decide)
  · have hb' : (pyStartsWith url "http://" || pyStartsWith url "https://") = false := by
      simpa using hb
    have hnav : navigateUrl url = "https://" ++ url := by simp [navigateUrl, hb']
    rw [hnav, hb']
    simp

/-- Witness for the amended claim C3 at the concrete urls http://x (passes
through unchanged) and example.com (gets the https:// scheme prefixed). -/
theorem navigate_https_rewrite_witness :
    (pyStartsWith "http://x" "http://" || pyStartsWith "http://x" "https://") = true ∧
    navigateUrl "http://x" = "http://x" ∧
    navigateUrl "example.com" = "https://" ++ "example.com" :=
  ⟨by decide, (navigate_https_rewrite "http://x").2.1 (by decide),
   (navigate_https_rewrite "example.com").1.mpr (by decide)⟩

end PW
